import Mathlib

/-!
Verification of the browser-side deployment form handler in `src/main.js`.

The handler is a single form-submit listener.  We embed it as a pure
function from the two input field values, the initial DOM state, and the
outcome of the one `fetch` call, to the final DOM state together with the
request it sent and the messages it logged to the console.

JavaScript specifics modelled explicitly:
- string truthiness: the empty string is falsy, any other string truthy
  (used by `basePathInput.value ? basePathInput.value : "/"` and by
  `(await response.text()) || "Deployment failed."`);
- `response.ok` is true exactly when the status is in 200..299;
- interpolating a missing object field into a template literal yields the
  text "undefined";
- `try`/`catch`/`finally` control flow becomes an `Except` value for the
  try body, an explicit catch step, and an explicit finally step.
-/

/-- The mutable DOM fields the handler reads and writes: the submit
button's `disabled` and `textContent`, `style.display` of the loading
indicator and of the result panel, and the result panel's `innerHTML`
and `className`. -/
structure DomState where
  buttonDisabled : Bool
  buttonLabel : String
  loadingDisplay : String
  resultDisplay : String
  resultInnerHTML : String
  resultClassName : String
  deriving Repr, DecidableEq

/-- The parsed JSON body of a 2xx response, as the handler consumes it:
it only reads the `slug` and `url` fields, either of which may be
absent. -/
structure DeployData where
  slug : Option String
  url : Option String
  deriving Repr, DecidableEq

/-- Outcome of `await response.json()` on a 2xx response: either a parsed
object or a thrown parse failure carrying its message. -/
inductive BodyParse where
  | parsed (d : DeployData)
  | parseError (msg : String)
  deriving Repr, DecidableEq

/-- Outcome of the single `fetch` call: either the transport fails
(the promise rejects with an error carrying `msg`), or a response
arrives with a status code, a text body (what `response.text()` yields),
and a JSON-parse outcome (what `response.json()` yields). -/
inductive FetchOutcome where
  | transportError (msg : String)
  | response (status : Nat) (bodyText : String) (bodyJson : BodyParse)
  deriving Repr, DecidableEq

/-- The request the handler hands to `fetch`.  The body is the object
passed to `JSON.stringify`, kept structured: its two fields are the
transmitted `url` and `base_path`. -/
structure DeployRequest where
  method : String
  endpoint : String
  contentType : String
  bodyUrl : String
  bodyBasePath : String
  deriving Repr, DecidableEq

/-- Everything observable about one run of the handler: the final DOM
state, the one request sent, and the console-error log. -/
structure HandlerResult where
  dom : DomState
  request : DeployRequest
  consoleErrors : List String
  deriving Repr, DecidableEq

/-- `response.ok`: status in the inclusive range 200..299. -/
def statusOk (status : Nat) : Bool :=
  200 ≤ status && status < 300

/-- Interpolation of a possibly-missing field into a template literal:
a missing field renders as the text "undefined". -/
def jsField (o : Option String) : String :=
  o.getD "undefined"

/-- The success template literal of `src/main.js` lines 34-40, with its
exact whitespace, as a function of the interpolated slug and url texts. -/
def successHTML (slug url : String) : String :=
  "\n                        <strong>Success!</strong>\n                        <p>Site ID: <strong>"
    ++ slug
    ++ "</strong></p>\n                        <a href=\""
    ++ url
    ++ "\" target=\"_blank\" id=\"result-url\">\n                            Go to Site\n                        </a>\n                    "

/-- The error template literal of `src/main.js` line 47, as a function of
the caught failure's message. -/
def errorHTML (msg : String) : String :=
  "<strong>Error:</strong> " ++ msg

/-- The `try` body (lines 22-44): on a transport failure the `fetch`
await throws; on `response.ok` the JSON body is parsed (which may throw)
and the result panel is styled as success; otherwise the text body is
read, defaulted when empty, and a `Server error:` failure is thrown.
Returns the DOM state on normal completion, or the thrown message. -/
def tryPhase (s : DomState) (net : FetchOutcome) : Except String DomState :=
  match net with
  | .transportError msg => .error msg
  | .response status bodyText bodyJson =>
    if statusOk status then
      match bodyJson with
      | .parsed d =>
        .ok { s with
                resultClassName := "success"
                resultInnerHTML := successHTML (jsField d.slug) (jsField d.url) }
      | .parseError msg => .error msg
    else
      let errorText := if bodyText = "" then "Deployment failed." else bodyText
      .error ("Server error: " ++ toString status ++ " " ++ errorText)

/-- The whole submit listener of `src/main.js` lines 8-56: phase 1 sets
the loading UI, phase 2 builds and sends the request and runs the try
body, the `catch` renders any thrown message as an error panel and logs
it, and the `finally` re-enables the button, restores its label, hides
the loading indicator and shows the result panel. -/
def handleSubmit (repoUrlValue basePathValue : String) (s0 : DomState)
    (net : FetchOutcome) : HandlerResult :=
  let url := repoUrlValue
  let base_path := if basePathValue = "" then "/" else basePathValue
  let s1 : DomState :=
    { s0 with
        buttonDisabled := true
        buttonLabel := "Deploying..."
        loadingDisplay := "block"
        resultDisplay := "none"
        resultInnerHTML := ""
        resultClassName := "" }
  let req : DeployRequest :=
    { method := "POST"
      endpoint := "/api/deploy"
      contentType := "application/json"
      bodyUrl := url
      bodyBasePath := base_path }
  let afterCatch : DomState × List String :=
    match tryPhase s1 net with
    | .ok s2 => (s2, [])
    | .error msg =>
      ({ s1 with
           resultClassName := "error"
           resultInnerHTML := errorHTML msg },
       [msg])
  let s3 : DomState :=
    { afterCatch.1 with
        buttonDisabled := false
        buttonLabel := "Deploy"
        loadingDisplay := "none"
        resultDisplay := "block" }
  { dom := s3, request := req, consoleErrors := afterCatch.2 }

/-- The message of the failure the request phase raises on a given fetch
outcome, if any: the transport's message, the JSON-parse message, or the
constructed `Server error:` message, with the empty-body fallback. -/
def requestFailure : FetchOutcome → Option String
  | .transportError msg => some msg
  | .response status bodyText bodyJson =>
    if statusOk status then
      match bodyJson with
      | .parsed _ => none
      | .parseError msg => some msg
    else
      some ("Server error: " ++ toString status ++ " "
        ++ (if bodyText = "" then "Deployment failed." else bodyText))

/-- `t` occurs verbatim, character for character, inside `s`. -/
def containsStr (s t : String) : Prop :=
  ∃ p q : String, s = p ++ t ++ q

/-- A sample idle DOM state, as the page presents it before any
submission. -/
def idleState : DomState :=
  { buttonDisabled := false
    buttonLabel := "Deploy"
    loadingDisplay := "none"
    resultDisplay := "none"
    resultInnerHTML := ""
    resultClassName := "" }

/-- C1: every submission sends exactly one POST to `/api/deploy` with
Content-Type `application/json`; the transmitted `url` is the url input
value as-is, and the transmitted `base_path` is `"/"` when the base-path
input is empty and the input verbatim otherwise. -/
theorem request_shape (u b : String) (s0 : DomState) (net : FetchOutcome) :
    (handleSubmit u b s0 net).request =
      { method := "POST"
        endpoint := "/api/deploy"
        contentType := "application/json"
        bodyUrl := u
        bodyBasePath := if b = "" then "/" else b } := rfl

/-- C2: after settlement the result panel is visible and its class is
exactly one of "success" or "error" — never both, never neither — for
every possible outcome of the request phase. -/
theorem result_panel_exclusive (u b : String) (s0 : DomState)
    (net : FetchOutcome) :
    (handleSubmit u b s0 net).dom.resultDisplay = "block" ∧
    (((handleSubmit u b s0 net).dom.resultClassName = "success" ∧
        (handleSubmit u b s0 net).dom.resultClassName ≠ "error") ∨
      ((handleSubmit u b s0 net).dom.resultClassName = "error" ∧
        (handleSubmit u b s0 net).dom.resultClassName ≠ "success")) := by
  refine ⟨rfl, ?_⟩
  cases net with
  | transportError msg =>
    simp [handleSubmit, tryPhase]
  | response status bodyText bodyJson =>
    cases bodyJson with
    | parsed d =>
      by_cases h : statusOk status <;>
        simp [handleSubmit, tryPhase, h]
    | parseError msg =>
      by_cases h : statusOk status <;>
        simp [handleSubmit, tryPhase, h]

/-- C3: the settlement phase runs on every exit path — success, non-2xx,
transport failure, JSON parse failure — and re-enables the submit
button, hides the loading indicator, and shows the result panel. -/
theorem settlement_always_runs (u b : String) (s0 : DomState)
    (net : FetchOutcome) :
    (handleSubmit u b s0 net).dom.buttonDisabled = false ∧
    (handleSubmit u b s0 net).dom.loadingDisplay = "none" ∧
    (handleSubmit u b s0 net).dom.resultDisplay = "block" :=
  ⟨rfl, rfl, rfl⟩

/-- C4: every failure raised during the request phase is caught exactly
once at the handler's top level: it is rendered as an error-styled panel
whose content is a bolded "Error:" prefix followed by the failure's
message, and logged to the console exactly once; when the request phase
raises no failure, nothing is logged. -/
theorem failure_caught_once (u b : String) (s0 : DomState)
    (net : FetchOutcome) :
    (∀ msg : String, requestFailure net = some msg →
      (handleSubmit u b s0 net).dom.resultClassName = "error" ∧
      (handleSubmit u b s0 net).dom.resultInnerHTML =
        "<strong>Error:</strong> " ++ msg ∧
      (handleSubmit u b s0 net).consoleErrors = [msg]) ∧
    (requestFailure net = none →
      (handleSubmit u b s0 net).consoleErrors = []) := by
  cases net with
  | transportError msg =>
    simp [handleSubmit, tryPhase, requestFailure, errorHTML]
  | response status bodyText bodyJson =>
    cases bodyJson with
    | parsed d =>
      by_cases h : statusOk status <;>
        simp [handleSubmit, tryPhase, requestFailure, errorHTML, h]
    | parseError msg =>
      by_cases h : statusOk status <;>
        simp [handleSubmit, tryPhase, requestFailure, errorHTML, h]

/-- Witness for C4: a concrete transport failure is rendered and logged. -/
theorem failure_caught_once_witness :
    requestFailure (.transportError "Failed to fetch") =
      some "Failed to fetch" ∧
    (handleSubmit "https://example.com/repo.git" "" idleState
        (.transportError "Failed to fetch")).dom.resultClassName = "error" ∧
    (handleSubmit "https://example.com/repo.git" "" idleState
        (.transportError "Failed to fetch")).dom.resultInnerHTML =
      "<strong>Error:</strong> " ++ "Failed to fetch" ∧
    (handleSubmit "https://example.com/repo.git" "" idleState
        (.transportError "Failed to fetch")).consoleErrors =
      ["Failed to fetch"] :=
  ⟨rfl,
    (failure_caught_once "https://example.com/repo.git" "" idleState
        (.transportError "Failed to fetch")).1 "Failed to fetch" rfl⟩

/-- C5: on every non-2xx response the raised failure's message is exactly
"Server error: <status> <body>", with the body text replaced by
"Deployment failed." when it is empty, and the error panel displays that
message after the bolded "Error:" prefix. -/
theorem server_error_message (u b : String) (s0 : DomState)
    (status : Nat) (bodyText : String) (bodyJson : BodyParse)
    (h : statusOk status = false) :
    requestFailure (.response status bodyText bodyJson) =
      some ("Server error: " ++ toString status ++ " " ++
        (if bodyText = "" then "Deployment failed." else bodyText)) ∧
    (handleSubmit u b s0 (.response status bodyText bodyJson)).dom.resultClassName
      = "error" ∧
    (handleSubmit u b s0 (.response status bodyText bodyJson)).dom.resultInnerHTML
      = "<strong>Error:</strong> " ++ ("Server error: " ++ toString status ++ " " ++
          (if bodyText = "" then "Deployment failed." else bodyText)) := by
  refine ⟨?_, ?_, ?_⟩ <;>
    simp [handleSubmit, tryPhase, requestFailure, errorHTML, h]

/-- Witness for C5: status 500 with an empty body falls back to the
generic message. -/
theorem server_error_message_witness :
    statusOk 500 = false ∧
    (handleSubmit "https://example.com/repo.git" "" idleState
        (.response 500 "" (.parseError "x"))).dom.resultInnerHTML =
      "<strong>Error:</strong> " ++ ("Server error: " ++ toString 500 ++ " " ++
        (if "" = "" then "Deployment failed." else "")) :=
  ⟨by decide,
    (server_error_message "https://example.com/repo.git" "" idleState
        500 "" (.parseError "x") (by decide)).2.2⟩

/-- The literal text of the success template before the slug
interpolation. -/
def successPre : String :=
  "\n                        <strong>Success!</strong>\n                        <p>Site ID: <strong>"

/-- The literal text of the success template between the slug and url
interpolations. -/
def successMid : String :=
  "</strong></p>\n                        <a href=\""

/-- The literal text of the success template after the url
interpolation. -/
def successTail : String :=
  "\" target=\"_blank\" id=\"result-url\">\n                            Go to Site\n                        </a>\n                    "

theorem successHTML_eq (s u : String) :
    successHTML s u = successPre ++ s ++ successMid ++ u ++ successTail := rfl

theorem successHTML_contains_text (s u : String) :
    containsStr (successHTML s u) s := by
  refine ⟨successPre, successMid ++ u ++ successTail, ?_⟩
  rw [successHTML_eq]
  simp [String.append_assoc]

theorem successHTML_contains_anchor (s u : String) :
    containsStr (successHTML s u)
      ("<a href=\"" ++ u ++ "\" target=\"_blank\" id=\"result-url\">") := by
  refine ⟨successPre ++ s ++ "</strong></p>\n                        ",
    "\n                            Go to Site\n                        </a>\n                    ", ?_⟩
  have hmid : successMid =
      "</strong></p>\n                        " ++ "<a href=\"" := rfl
  have htail : successTail =
      "\" target=\"_blank\" id=\"result-url\">" ++
        "\n                            Go to Site\n                        </a>\n                    " := rfl
  rw [successHTML_eq, hmid, htail]
  simp only [String.append_assoc]

/-- C6: on a 2xx response whose body parses as JSON, the result panel
gets the success class and its content contains the returned slug as
text and an anchor element whose href is the returned url. -/
theorem success_panel_render (u b : String) (s0 : DomState) (status : Nat)
    (bodyText slug siteUrl : String) (h : statusOk status = true) :
    (handleSubmit u b s0 (.response status bodyText
        (.parsed { slug := some slug, url := some siteUrl }))).dom.resultClassName
      = "success" ∧
    containsStr (handleSubmit u b s0 (.response status bodyText
        (.parsed { slug := some slug, url := some siteUrl }))).dom.resultInnerHTML
      slug ∧
    containsStr (handleSubmit u b s0 (.response status bodyText
        (.parsed { slug := some slug, url := some siteUrl }))).dom.resultInnerHTML
      ("<a href=\"" ++ siteUrl ++ "\" target=\"_blank\" id=\"result-url\">") := by
  have he : (handleSubmit u b s0 (.response status bodyText
      (.parsed { slug := some slug, url := some siteUrl }))).dom.resultInnerHTML
      = successHTML slug siteUrl := by
    simp [handleSubmit, tryPhase, jsField, h]
  refine ⟨?_, ?_, ?_⟩
  · simp [handleSubmit, tryPhase, h]
  · rw [he]; exact successHTML_contains_text slug siteUrl
  · rw [he]; exact successHTML_contains_anchor slug siteUrl

/-- Witness for C6: the spec's Scenario A, with a 200 response carrying
slug "abc123" and url "https://abc123.example.com". -/
theorem success_panel_render_witness :
    statusOk 200 = true ∧
    ((handleSubmit "https://example.com/repo.git" "" idleState
        (.response 200 "" (.parsed
          { slug := some "abc123",
            url := some "https://abc123.example.com" }))).dom.resultClassName
      = "success" ∧
    containsStr (handleSubmit "https://example.com/repo.git" "" idleState
        (.response 200 "" (.parsed
          { slug := some "abc123",
            url := some "https://abc123.example.com" }))).dom.resultInnerHTML
      "abc123" ∧
    containsStr (handleSubmit "https://example.com/repo.git" "" idleState
        (.response 200 "" (.parsed
          { slug := some "abc123",
            url := some "https://abc123.example.com" }))).dom.resultInnerHTML
      ("<a href=\"" ++ "https://abc123.example.com" ++
        "\" target=\"_blank\" id=\"result-url\">")) :=
  ⟨by decide,
    success_panel_render "https://example.com/repo.git" "" idleState 200
      "" "abc123" "https://abc123.example.com" (by decide)⟩

/-- The interpolated url text occurs verbatim in the success template. -/
theorem successHTML_contains_urlText (s u : String) :
    containsStr (successHTML s u) u := by
  refine ⟨successPre ++ s ++ successMid, successTail, ?_⟩
  rw [successHTML_eq]

/-- C9: a 2xx response whose JSON body lacks the `slug` field or the
`url` field (or both) raises no failure: the panel still gets the
success class and is rendered, with the literal text "undefined"
interpolated in place of each missing field — the payload's shape is
never validated. -/
theorem missing_fields_render_undefined (u b : String) (s0 : DomState)
    (status : Nat) (bodyText : String) (d : DeployData)
    (h : statusOk status = true) (hmiss : d.slug = none ∨ d.url = none) :
    (handleSubmit u b s0 (.response status bodyText
        (.parsed d))).consoleErrors = [] ∧
    (handleSubmit u b s0 (.response status bodyText
        (.parsed d))).dom.resultClassName = "success" ∧
    (handleSubmit u b s0 (.response status bodyText
        (.parsed d))).dom.resultDisplay = "block" ∧
    (handleSubmit u b s0 (.response status bodyText
        (.parsed d))).dom.resultInnerHTML
      = successHTML (d.slug.getD "undefined") (d.url.getD "undefined") ∧
    containsStr (handleSubmit u b s0 (.response status bodyText
        (.parsed d))).dom.resultInnerHTML "undefined" := by
  have he : (handleSubmit u b s0 (.response status bodyText
      (.parsed d))).dom.resultInnerHTML
      = successHTML (d.slug.getD "undefined") (d.url.getD "undefined") := by
    simp [handleSubmit, tryPhase, jsField, h]
  refine ⟨?_, ?_, rfl, he, ?_⟩
  · simp [handleSubmit, tryPhase, h]
  · simp [handleSubmit, tryPhase, h]
  · rw [he]
    rcases hmiss with hs | hu
    · rw [hs]
      exact successHTML_contains_text _ _
    · rw [hu]
      exact successHTML_contains_urlText _ _

/-- Witness for C9: a 200 response whose JSON body has a slug but no
url field. -/
theorem missing_fields_render_undefined_witness :
    statusOk 200 = true ∧
    (DeployData.slug { slug := some "abc123", url := none } = none ∨
      DeployData.url { slug := some "abc123", url := none } = none) ∧
    ((handleSubmit "https://example.com/repo.git" "" idleState
        (.response 200 "" (.parsed
          { slug := some "abc123", url := none }))).consoleErrors = [] ∧
    (handleSubmit "https://example.com/repo.git" "" idleState
        (.response 200 "" (.parsed
          { slug := some "abc123", url := none }))).dom.resultClassName
      = "success" ∧
    (handleSubmit "https://example.com/repo.git" "" idleState
        (.response 200 "" (.parsed
          { slug := some "abc123", url := none }))).dom.resultDisplay
      = "block" ∧
    (handleSubmit "https://example.com/repo.git" "" idleState
        (.response 200 "" (.parsed
          { slug := some "abc123", url := none }))).dom.resultInnerHTML
      = successHTML (Option.getD (some "abc123") "undefined")
          (Option.getD none "undefined") ∧
    containsStr (handleSubmit "https://example.com/repo.git" "" idleState
        (.response 200 "" (.parsed
          { slug := some "abc123", url := none }))).dom.resultInnerHTML
      "undefined") :=
  ⟨by decide, Or.inr rfl,
    missing_fields_render_undefined "https://example.com/repo.git" ""
      idleState 200 "" { slug := some "abc123", url := none }
      (by decide) (Or.inr rfl)⟩

/-- A DOM state whose submit button is already disabled before
submission starts. -/
def disabledStartState : DomState :=
  { idleState with buttonDisabled := true }

/-- Counterexample to C7 as stated: when the button's `disabled`
property is true before submission, settlement still forces it to
false, so the enabled state does not round-trip for every initial
value. -/
theorem button_state_roundtrip_cex :
    (handleSubmit "https://example.com/repo.git" "" disabledStartState
        (.transportError "Failed to fetch")).dom.buttonDisabled ≠
      disabledStartState.buttonDisabled := by decide

/-- C7 amended: after settlement the button's `disabled` property is
always false, so the enabled state equals the pre-submission state
exactly when the button was enabled before submission started. -/
theorem button_enabled_after_settle (u b : String) (s0 : DomState)
    (net : FetchOutcome) :
    (handleSubmit u b s0 net).dom.buttonDisabled = false ∧
    (s0.buttonDisabled = false →
      (handleSubmit u b s0 net).dom.buttonDisabled = s0.buttonDisabled) :=
  ⟨rfl, fun h => h ▸ rfl⟩

/-- Witness for C7 amended: a submission from the idle state, whose
button starts enabled. -/
theorem button_enabled_after_settle_witness :
    (handleSubmit "https://example.com/repo.git" "" idleState
        (.transportError "Failed to fetch")).dom.buttonDisabled = false ∧
    idleState.buttonDisabled = false ∧
    (handleSubmit "https://example.com/repo.git" "" idleState
        (.transportError "Failed to fetch")).dom.buttonDisabled =
      idleState.buttonDisabled :=
  ⟨(button_enabled_after_settle "https://example.com/repo.git" "" idleState
      (.transportError "Failed to fetch")).1,
    rfl,
    (button_enabled_after_settle "https://example.com/repo.git" "" idleState
      (.transportError "Failed to fetch")).2 rfl⟩

/-- A DOM state whose submit button carries a label other than
"Deploy" before submission. -/
def customLabelState : DomState :=
  { idleState with buttonLabel := "Launch" }

/-- Counterexample to C8 as stated: a pre-submission label other than
"Deploy" is not restored — settlement writes the fixed label
"Deploy". -/
theorem button_label_restore_cex :
    (handleSubmit "https://example.com/repo.git" "" customLabelState
        (.transportError "Failed to fetch")).dom.buttonLabel ≠
      customLabelState.buttonLabel := by decide

/-- C8 amended: settlement always sets the button label to the fixed
string "Deploy" (after the in-progress label "Deploying..." of phase 1),
so the pre-submission label is restored exactly when it was "Deploy". -/
theorem button_label_after_settle (u b : String) (s0 : DomState)
    (net : FetchOutcome) :
    (handleSubmit u b s0 net).dom.buttonLabel = "Deploy" ∧
    (s0.buttonLabel = "Deploy" →
      (handleSubmit u b s0 net).dom.buttonLabel = s0.buttonLabel) :=
  ⟨rfl, fun h => h ▸ rfl⟩

/-- Witness for C8 amended: a submission from the idle state, whose
button label is "Deploy". -/
theorem button_label_after_settle_witness :
    (handleSubmit "https://example.com/repo.git" "" idleState
        (.transportError "Failed to fetch")).dom.buttonLabel = "Deploy" ∧
    idleState.buttonLabel = "Deploy" ∧
    (handleSubmit "https://example.com/repo.git" "" idleState
        (.transportError "Failed to fetch")).dom.buttonLabel =
      idleState.buttonLabel :=
  ⟨(button_label_after_settle "https://example.com/repo.git" "" idleState
      (.transportError "Failed to fetch")).1,
    rfl,
    (button_label_after_settle "https://example.com/repo.git" "" idleState
      (.transportError "Failed to fetch")).2 rfl⟩

/-- C10: server-controlled strings are interpolated verbatim and
unescaped into the panel's innerHTML: on a parsed 2xx response the
rendered HTML contains the returned slug and url character for
character, and on a non-2xx response with a non-empty body the rendered
HTML contains the body text character for character. -/
theorem unescaped_interpolation :
    (∀ (u b : String) (s0 : DomState) (status : Nat)
        (bodyText slug siteUrl : String), statusOk status = true →
      ∃ p m q : String,
        (handleSubmit u b s0 (.response status bodyText
            (.parsed { slug := some slug, url := some siteUrl }))).dom.resultInnerHTML
          = p ++ slug ++ m ++ siteUrl ++ q) ∧
    (∀ (u b : String) (s0 : DomState) (status : Nat)
        (bodyText : String) (bodyJson : BodyParse),
        statusOk status = false → bodyText ≠ "" →
      ∃ p q : String,
        (handleSubmit u b s0 (.response status bodyText
            bodyJson)).dom.resultInnerHTML = p ++ bodyText ++ q) := by
  constructor
  · intro u b s0 status bodyText slug siteUrl h
    refine ⟨successPre, successMid, successTail, ?_⟩
    have he := successHTML_eq slug siteUrl
    simp [handleSubmit, tryPhase, jsField, h, he]
  · intro u b s0 status bodyText bodyJson h hbody
    refine ⟨"<strong>Error:</strong> " ++
      ("Server error: " ++ toString status ++ " "), "", ?_⟩
    simp only [handleSubmit, tryPhase, errorHTML, h, hbody, if_neg,
      Bool.false_eq_true, if_false]
    simp [hbody, String.append_assoc]

/-- Witness for C10: markup-bearing slug, url and error body text land in
the innerHTML unchanged. -/
theorem unescaped_interpolation_witness :
    (statusOk 200 = true ∧
      ∃ p m q : String,
        (handleSubmit "https://example.com/repo.git" "" idleState
            (.response 200 "" (.parsed
              { slug := some "<img src=x>",
                url := some "javascript:alert(1)" }))).dom.resultInnerHTML
          = p ++ "<img src=x>" ++ m ++ "javascript:alert(1)" ++ q) ∧
    (statusOk 500 = false ∧ "<script>alert(1)</script>" ≠ "" ∧
      ∃ p q : String,
        (handleSubmit "https://example.com/repo.git" "" idleState
            (.response 500 "<script>alert(1)</script>"
              (.parseError "x"))).dom.resultInnerHTML
          = p ++ "<script>alert(1)</script>" ++ q) :=
  ⟨⟨by decide,
      unescaped_interpolation.1 "https://example.com/repo.git" "" idleState
        200 "" "<img src=x>" "javascript:alert(1)" (by decide)⟩,
    ⟨by decide, by decide,
      unescaped_interpolation.2 "https://example.com/repo.git" "" idleState
        500 "<script>alert(1)</script>" (.parseError "x") (by decide)
        (by decide)⟩⟩
